import Mathlib

/-!
# TrustSync backend — shallow embedding

A shallow embedding of `src/index.js` (the TrustSync notification-channel
decision engine): the in-memory stores (`TELEMETRY`, `USER_EVENTS`,
`EVENT_ORDER`, `USER_DB`, `DEVICE_CONTEXT_STORE`), the HTTP handlers
(`/send-notification`, `/ack`, `/login`, `/complete-binding`,
`/update-context`, `/inbox/:userId`) and the `setTimeout` escalation timers
are modelled as a step function on an explicit state.  Timestamps are a
`Nat` clock incremented once per operation (the source uses ISO strings from
`new Date()`; monotonicity is what matters).  Pending `setTimeout` callbacks
are reified as a list of `Timer` values; a separate `fire` operation runs
one of them, reading the *current* store exactly as the JS closure does.
JavaScript optional fields and truthiness (`ctx.has_app`,
`body.user_id || 'demo_user'`) are modelled with `Option` and explicit
coercions.
-/

namespace TrustSync

/-- A JS object with the optional context fields used by the code
(`device_status`, `has_app`, `is_active`, `device_online`,
`whatsapp_opt_in`); absent fields are `none`. -/
structure PartialCtx where
  device_status : Option String := none
  has_app : Option Bool := none
  is_active : Option Bool := none
  device_online : Option Bool := none
  whatsapp_opt_in : Option Bool := none
deriving DecidableEq, Repr

/-- JS truthiness of an optional boolean field: `undefined` and `false` are
falsy, `true` is truthy. -/
def truthy (o : Option Bool) : Bool := o.getD false

/-- JS object spread `\x7b ...a, ...b \x7d`: keys present in `b` override
those of `a`. -/
def mergeCtx (a b : PartialCtx) : PartialCtx where
  device_status := b.device_status <|> a.device_status
  has_app := b.has_app <|> a.has_app
  is_active := b.is_active <|> a.is_active
  device_online := b.device_online <|> a.device_online
  whatsapp_opt_in := b.whatsapp_opt_in <|> a.whatsapp_opt_in

/-- JS `o || d` for an optional string: `undefined` and the empty string
fall back to the default. -/
def jsOrStr (o : Option String) (d : String) : String :=
  match o with
  | some v => if v = "" then d else v
  | none => d

/-- One telemetry record, as initialised by `/send-notification` and
`/login` in `src/index.js`. -/
structure TelemetryRecord where
  event_id : String
  user_id : String
  event_type : String
  chosen_channel : Option String
  sent_ts : Option Nat
  ack_ts : Option Nat
  fallback_triggered : Bool
  fallback_channel : Option String
  logs : List (Nat × String)
deriving DecidableEq, Repr

/-- Entry of the mock `USER_DB`. -/
structure UserRec where
  registered_device_id : String
  is_registered : Bool
deriving DecidableEq, Repr

/-- A pending `setTimeout` escalation callback: which event it is scoped
to, which dispatch branch armed it (`"PUSH"` or `"WHATSAPP"`), and the
`whatsapp_opt_in` field of the merged context object captured by the
closure. -/
structure Timer where
  event_id : String
  kind : String
  ctx_whatsapp_opt_in : Option Bool
deriving DecidableEq, Repr

/-- Keyed-object lookup (`STORE[key]`). -/
def alookup {α : Type} : List (String × α) → String → Option α
  | [], _ => none
  | (k, v) :: rest, key => if k = key then some v else alookup rest key

/-- Keyed-object assignment (`STORE[key] = v`). -/
def aupdate {α : Type} : List (String × α) → String → α → List (String × α)
  | [], key, v => [(key, v)]
  | (k, w) :: rest, key, v =>
      if k = key then (key, v) :: rest else (k, w) :: aupdate rest key v

/-- The whole mutable state of the process. -/
structure SysState where
  telemetry : List (String × TelemetryRecord)
  userEvents : List (String × List String)
  eventOrder : List String
  userDb : List (String × UserRec)
  contextStore : List (String × PartialCtx)
  timers : List Timer
  clock : Nat
deriving DecidableEq, Repr

/-- The stores as initialised at the top of `src/index.js`. -/
def initState : SysState where
  telemetry := []
  userEvents := []
  eventOrder := []
  userDb := [("demo_user", { registered_device_id := "device_888", is_registered := true })]
  contextStore := [("demo_user",
    { device_status := some "KNOWN", has_app := some true, is_active := some false,
      device_online := some true, whatsapp_opt_in := some true })]
  timers := []
  clock := 0

/-- Source function `pushUserEvent(userId, eventId)`: append the event id to the user's
list, creating the list when absent. -/
def pushUserEvent (s : SysState) (userId eventId : String) : SysState :=
  let old := (alookup s.userEvents userId).getD []
  { s with userEvents := aupdate s.userEvents userId (old ++ [eventId]) }

/-- Apply `f` to the record stored under `e`, a no-op when the record is
absent (the pattern of every telemetry mutation in the source). -/
def modifyRecord (s : SysState) (e : String) (f : TelemetryRecord → TelemetryRecord) :
    SysState :=
  match alookup s.telemetry e with
  | none => s
  | some r => { s with telemetry := aupdate s.telemetry e (f r) }

/-- Source function `recordLog(event_id, msg)`: append a timestamped message to the
record's log, a no-op when the record is absent. -/
def recordLog (s : SysState) (e msg : String) : SysState :=
  modifyRecord s e (fun r => { r with logs := r.logs ++ [(s.clock, msg)] })

/-- The empty JS object `\x7b\x7d`. -/
def emptyCtx : PartialCtx := {}

/-- The channel cascade of `/send-notification` (branches A–D), extracted
as a function of the merged context. -/
def selectChannel (ctx : PartialCtx) : String :=
  if truthy ctx.has_app && truthy ctx.is_active && truthy ctx.device_online then "IN_APP"
  else if truthy ctx.has_app && truthy ctx.device_online then "PUSH"
  else if truthy ctx.whatsapp_opt_in && truthy ctx.device_online then "WHATSAPP"
  else "SMS"

/-- The request body of `/send-notification`; absent fields are `none`. -/
structure DispatchBody where
  event_id : Option String := none
  user_id : Option String := none
  event_type : Option String := none
  user_context : PartialCtx := {}
deriving DecidableEq, Repr

/-- The context `/send-notification` decides on: the caller-supplied
`body.user_context` spread first, then the stored simulated context of the
(defaulted) user spread over it. -/
def dispatchCtx (s : SysState) (b : DispatchBody) : PartialCtx :=
  mergeCtx b.user_context
    ((alookup s.contextStore (jsOrStr b.user_id "demo_user")).getD emptyCtx)

/-- Response of `/send-notification` and `/login`: the fields the claims
observe. -/
structure Response where
  status : String
  event_id : String
  chosen_channel : String
deriving DecidableEq, Repr

/-- Mark the chosen channel, stamp `sent_ts`, and log the routing
decision (the common body of branches A–D). -/
def routeTo (s : SysState) (e ch msg : String) : SysState :=
  let s1 := modifyRecord s e
    (fun r => { r with chosen_channel := some ch, sent_ts := some s.clock })
  recordLog s1 e msg

/-- The `/send-notification` handler.  `freshId` stands for the
`uuidv4()` value used when the body carries no event id.  Returns the new
state and the JSON response. -/
def sendNotification (s : SysState) (b : DispatchBody) (freshId : String) :
    SysState × Response :=
  let event_id := jsOrStr b.event_id freshId
  let user_id := jsOrStr b.user_id "demo_user"
  let event_type := jsOrStr b.event_type "LOGIN_OTP"
  let ctx := dispatchCtx s b
  let rec0 : TelemetryRecord :=
    { event_id := event_id, user_id := user_id, event_type := event_type,
      chosen_channel := none, sent_ts := none, ack_ts := none,
      fallback_triggered := false, fallback_channel := none, logs := [] }
  let s1 := { s with telemetry := aupdate s.telemetry event_id rec0 }
  let newOrder :=
    if s1.eventOrder.contains event_id then s1.eventOrder else event_id :: s1.eventOrder
  let s2 := { s1 with eventOrder := newOrder }
  let s3 := pushUserEvent s2 user_id event_id
  if truthy ctx.has_app && truthy ctx.is_active && truthy ctx.device_online then
    (routeTo s3 event_id "IN_APP" "Route: IN_APP (User active in app)",
     { status := "ok", event_id := event_id, chosen_channel := "IN_APP" })
  else if truthy ctx.has_app && truthy ctx.device_online then
    let s4 := routeTo s3 event_id "PUSH" "Route: PUSH (Background notification)"
    let t : Timer :=
      { event_id := event_id, kind := "PUSH", ctx_whatsapp_opt_in := ctx.whatsapp_opt_in }
    ({ s4 with timers := s4.timers ++ [t] },
     { status := "ok", event_id := event_id, chosen_channel := "PUSH" })
  else if truthy ctx.whatsapp_opt_in && truthy ctx.device_online then
    let s4 := routeTo s3 event_id "WHATSAPP" "Route: WHATSAPP (Opt-in Primary)"
    let t : Timer :=
      { event_id := event_id, kind := "WHATSAPP", ctx_whatsapp_opt_in := ctx.whatsapp_opt_in }
    ({ s4 with timers := s4.timers ++ [t] },
     { status := "ok", event_id := event_id, chosen_channel := "WHATSAPP" })
  else
    (routeTo s3 event_id "SMS" "Route: SMS (Last Resort)",
     { status := "ok", event_id := event_id, chosen_channel := "SMS" })

/-- The `/ack` handler: if the record exists, overwrite `ack_ts` with the
current time and log receipt. -/
def ackHandler (s : SysState) (event_id channel : String) : SysState :=
  match alookup s.telemetry event_id with
  | none => s
  | some r =>
      let t1 := aupdate s.telemetry event_id { r with ack_ts := some s.clock }
      recordLog { s with telemetry := t1 } event_id ("ACK received via " ++ channel)

/-- What a fired timer writes as `fallback_channel`: the `PUSH` closure
computes `ctx.whatsapp_opt_in ? WHATSAPP : SMS` from its captured context,
the `WHATSAPP` closure always writes `SMS`. -/
def timerFallback (t : Timer) : String :=
  if t.kind = "PUSH" then (if truthy t.ctx_whatsapp_opt_in then "WHATSAPP" else "SMS")
  else "SMS"

/-- A `setTimeout` callback firing: remove timer `i` from the pending
list and run its body against the current store — return unless the
record exists with `ack_ts` still unset, else commit the fallback. -/
def fireTimer (s : SysState) (i : Nat) : SysState :=
  match s.timers[i]? with
  | none => s
  | some t =>
      let s1 := { s with timers := s.timers.eraseIdx i }
      match alookup s1.telemetry t.event_id with
      | none => s1
      | some r =>
          if r.ack_ts.isSome then s1
          else
            let fb := timerFallback t
            let r1 := { r with fallback_triggered := true, fallback_channel := some fb }
            let s2 := { s1 with telemetry := aupdate s1.telemetry t.event_id r1 }
            recordLog s2 t.event_id ("No ACK -> Fallback to " ++ fb)

/-- The `/login` handler.  `freshId` stands for the generated `uuidv4()`
event id.  Returns the new state and the JSON response. -/
def login (s : SysState) (user_id device_id freshId : String) : SysState × Response :=
  let event_id := freshId
  let simContext := (alookup s.contextStore user_id).getD emptyCtx
  let rec0 : TelemetryRecord :=
    { event_id := event_id, user_id := user_id, event_type := "LOGIN_ATTEMPT",
      chosen_channel := some "ANALYZING", sent_ts := some s.clock, ack_ts := none,
      fallback_triggered := false, fallback_channel := none, logs := [] }
  let s1 := { s with telemetry := aupdate s.telemetry event_id rec0 }
  let newOrder :=
    if s1.eventOrder.contains event_id then s1.eventOrder else event_id :: s1.eventOrder
  let s2 := { s1 with eventOrder := newOrder }
  let s3 := pushUserEvent s2 user_id event_id
  let s4 := recordLog s3 event_id ("Login attempt from Device ID: " ++ device_id)
  if simContext.device_status = some "KNOWN" then
    let s5 := modifyRecord s4 event_id (fun r =>
      { r with event_type := "TRUSTED_LOGIN", chosen_channel := some "IN_APP" })
    let s6 := recordLog s5 event_id "Device ID matched registry."
    let s7 := recordLog s6 event_id "Trust Score: HIGH. Sending In-App Flash."
    (s7, { status := "TRUSTED", event_id := event_id, chosen_channel := "IN_APP" })
  else
    let s5 := modifyRecord s4 event_id (fun r =>
      { r with event_type := "NEW_DEVICE_LOGIN", chosen_channel := some "SMS_BINDING" })
    let s6 := recordLog s5 event_id "Device ID mismatch (Unknown Device)."
    let s7 := recordLog s6 event_id "Security Policy: Force SIM Binding (Upstream SMS)."
    (s7, { status := "BINDING_REQUIRED", event_id := event_id, chosen_channel := "SMS_BINDING" })

/-- The `/complete-binding` handler: replace the user's registered device
unconditionally; stamp `ack_ts` and log when the referenced event
exists. -/
def completeBinding (s : SysState) (user_id device_id : String)
    (event_id : Option String) : SysState :=
  let newDb := aupdate s.userDb user_id
    { registered_device_id := device_id, is_registered := true }
  let s1 := { s with userDb := newDb }
  match event_id with
  | none => s1
  | some eid =>
      if eid = "" then s1
      else
        match alookup s1.telemetry eid with
        | none => s1
        | some r =>
            let t1 := aupdate s1.telemetry eid { r with ack_ts := some s.clock }
            let s2 := { s1 with telemetry := t1 }
            let s3 := recordLog s2 eid "Encrypted SMS received at Bank Server."
            recordLog s3 eid "Registry Updated: Replaced old with new."

/-- The `/update-context` handler: merge the partial context into the
stored simulated context for the (defaulted) user. -/
def updateContext (s : SysState) (user_id : Option String) (context : PartialCtx) :
    SysState :=
  let targetUser := jsOrStr user_id "demo_user"
  let old := (alookup s.contextStore targetUser).getD emptyCtx
  { s with contextStore := aupdate s.contextStore targetUser (mergeCtx old context) }

/-- The `/inbox/:userId` handler: the user's event ids mapped through the
telemetry store, missing records dropped, newest (most recently pushed)
first. -/
def inbox (s : SysState) (userId : String) : List TelemetryRecord :=
  (((alookup s.userEvents userId).getD []).filterMap
    (fun id => alookup s.telemetry id)).reverse

/-- One external stimulus: an HTTP request or a timer expiry. -/
inductive Op where
  | dispatch (b : DispatchBody) (freshId : String)
  | ack (event_id channel : String)
  | fire (i : Nat)
  | login (user_id device_id freshId : String)
  | completeBinding (user_id device_id : String) (event_id : Option String)
  | updateContext (user_id : Option String) (context : PartialCtx)
deriving DecidableEq, Repr

/-- Process one stimulus and advance the clock. -/
def step (s : SysState) (op : Op) : SysState :=
  let s1 :=
    match op with
    | .dispatch b fid => (sendNotification s b fid).1
    | .ack e c => ackHandler s e c
    | .fire i => fireTimer s i
    | .login u d fid => (login s u d fid).1
    | .completeBinding u d e => completeBinding s u d e
    | .updateContext u c => updateContext s u c
  { s1 with clock := s.clock + 1 }

/-- Run a sequence of stimuli. -/
def run (s : SysState) (ops : List Op) : SysState :=
  ops.foldl step s

/-- The decision cascade exactly as the spec words it: a first-match
priority cascade over the four resolved boolean flags of the context
snapshot. -/
def selectSpec (has_app is_active device_online whatsapp_opt_in : Bool) : String :=
  if has_app ∧ is_active ∧ device_online then "IN_APP"
  else if has_app ∧ device_online then "PUSH"
  else if whatsapp_opt_in ∧ device_online then "WHATSAPP"
  else "SMS"

/-- Does this stimulus (re-)create the telemetry record stored under `e`?
Only a dispatch whose resolved event id is `e`, or a login whose generated
id is `e`, writes a fresh record there. -/
def createsEvent (op : Op) (e : String) : Bool :=
  match op with
  | .dispatch b fid => jsOrStr b.event_id fid = e
  | .login _ _ fid => fid = e
  | _ => false

/-- The event ids a sequence of stimuli appends to user `u`'s index, in
order: each dispatch appends its resolved event id to its resolved user,
each login appends its generated event id to its user. -/
def userInsertions (u : String) : List Op → List String
  | [] => []
  | op :: rest =>
      (match op with
       | .dispatch b fid =>
           if jsOrStr b.user_id "demo_user" = u then [jsOrStr b.event_id fid] else []
       | .login u2 _ fid => if u2 = u then [fid] else []
       | _ => []) ++ userInsertions u rest

/-- Concrete dispatch body: caller supplies only the event id `"e1"`;
against `initState`'s stored context for `demo_user` this routes to PUSH
and arms a timer. -/
def pushBody : DispatchBody := { event_id := some "e1" }

/-- Concrete dispatch body with no `user_id` field. -/
def noUserBody : DispatchBody := { event_id := some "e9" }

/-- Concrete caller-supplied context snapshot: user present in the app
and online, no WhatsApp opt-in.  On its own the cascade sends it to
IN_APP. -/
def callerCtx : PartialCtx :=
  { has_app := some true, is_active := some true, device_online := some true,
    whatsapp_opt_in := some false }

/-- Concrete dispatch body carrying `callerCtx` as explicit context. -/
def callerBody : DispatchBody := { event_id := some "e8", user_context := callerCtx }


/-! ## Store lemmas -/

theorem alookup_aupdate_self {α : Type} (l : List (String × α)) (k : String) (v : α) :
    alookup (aupdate l k v) k = some v := by
  induction l with
  | nil => simp [alookup, aupdate]
  | cons p rest ih =>
      obtain ⟨k1, v1⟩ := p
      by_cases h : k1 = k <;> simp [alookup, aupdate, h, ih]

theorem alookup_aupdate_ne {α : Type} (l : List (String × α)) (k k2 : String) (v : α)
    (h : k ≠ k2) : alookup (aupdate l k v) k2 = alookup l k2 := by
  induction l with
  | nil => simp [alookup, aupdate, h]
  | cons p rest ih =>
      obtain ⟨k1, v1⟩ := p
      by_cases h1 : k1 = k <;> simp [alookup, aupdate, h1, h, ih]

theorem pushUserEvent_telemetry (s : SysState) (u e : String) :
    (pushUserEvent s u e).telemetry = s.telemetry := by
  simp [pushUserEvent]

theorem modifyRecord_eq_some (s : SysState) (e : String)
    (f : TelemetryRecord → TelemetryRecord) (r : TelemetryRecord)
    (h : alookup s.telemetry e = some r) :
    modifyRecord s e f = { s with telemetry := aupdate s.telemetry e (f r) } := by
  simp [modifyRecord, h]

theorem modifyRecord_eq_none (s : SysState) (e : String)
    (f : TelemetryRecord → TelemetryRecord) (h : alookup s.telemetry e = none) :
    modifyRecord s e f = s := by
  simp [modifyRecord, h]

theorem routeTo_lookup (s : SysState) (e ch msg : String) (r : TelemetryRecord)
    (h : alookup s.telemetry e = some r) :
    alookup (routeTo s e ch msg).telemetry e =
      some { r with chosen_channel := some ch, sent_ts := some s.clock,
                    logs := r.logs ++ [(s.clock, msg)] } := by
  simp [routeTo, modifyRecord, recordLog, h, alookup_aupdate_self]


theorem sendNotification_resp (s : SysState) (b : DispatchBody) (fid : String) :
    (sendNotification s b fid).2 =
      { status := "ok", event_id := jsOrStr b.event_id fid,
        chosen_channel := selectChannel (dispatchCtx s b) } := by
  cases hha : truthy (dispatchCtx s b).has_app <;>
    cases hia : truthy (dispatchCtx s b).is_active <;>
      cases hdo : truthy (dispatchCtx s b).device_online <;>
        cases hwa : truthy (dispatchCtx s b).whatsapp_opt_in <;>
          simp [sendNotification, selectChannel, hha, hia, hdo, hwa]

theorem sendNotification_record (s : SysState) (b : DispatchBody) (fid : String) :
    ∃ r, alookup (sendNotification s b fid).1.telemetry (jsOrStr b.event_id fid) = some r ∧
      r.event_id = jsOrStr b.event_id fid ∧
      r.user_id = jsOrStr b.user_id "demo_user" ∧
      r.event_type = jsOrStr b.event_type "LOGIN_OTP" ∧
      r.chosen_channel = some (selectChannel (dispatchCtx s b)) ∧
      r.sent_ts = some s.clock ∧ r.ack_ts = none ∧
      r.fallback_triggered = false ∧ r.fallback_channel = none ∧
      r.logs.map Prod.fst = [s.clock] := by
  cases hha : truthy (dispatchCtx s b).has_app <;>
    cases hia : truthy (dispatchCtx s b).is_active <;>
      cases hdo : truthy (dispatchCtx s b).device_online <;>
        cases hwa : truthy (dispatchCtx s b).whatsapp_opt_in <;>
          simp [sendNotification, selectChannel, routeTo, recordLog,
            modifyRecord_eq_some, pushUserEvent, alookup_aupdate_self, hha, hia, hdo, hwa]

theorem sendNotification_timers (s : SysState) (b : DispatchBody) (fid : String) :
    (sendNotification s b fid).1.timers =
      (if selectChannel (dispatchCtx s b) = "PUSH" ∨
          selectChannel (dispatchCtx s b) = "WHATSAPP" then
        s.timers ++ [{ event_id := jsOrStr b.event_id fid,
                       kind := selectChannel (dispatchCtx s b),
                       ctx_whatsapp_opt_in := (dispatchCtx s b).whatsapp_opt_in }]
      else s.timers) := by
  cases hha : truthy (dispatchCtx s b).has_app <;>
    cases hia : truthy (dispatchCtx s b).is_active <;>
      cases hdo : truthy (dispatchCtx s b).device_online <;>
        cases hwa : truthy (dispatchCtx s b).whatsapp_opt_in <;>
          simp [sendNotification, selectChannel, routeTo, recordLog,
            modifyRecord_eq_some, pushUserEvent, alookup_aupdate_self, hha, hia, hdo, hwa]


theorem modifyRecord_telemetry_ne (s : SysState) (e : String)
    (f : TelemetryRecord → TelemetryRecord) (e2 : String) (h : e ≠ e2) :
    alookup (modifyRecord s e f).telemetry e2 = alookup s.telemetry e2 := by
  unfold modifyRecord
  split <;> simp [alookup_aupdate_ne _ _ _ _ h]

theorem modifyRecord_userEvents (s : SysState) (e : String)
    (f : TelemetryRecord → TelemetryRecord) :
    (modifyRecord s e f).userEvents = s.userEvents := by
  unfold modifyRecord; split <;> rfl

theorem modifyRecord_eventOrder (s : SysState) (e : String)
    (f : TelemetryRecord → TelemetryRecord) :
    (modifyRecord s e f).eventOrder = s.eventOrder := by
  unfold modifyRecord; split <;> rfl

theorem modifyRecord_userDb (s : SysState) (e : String)
    (f : TelemetryRecord → TelemetryRecord) :
    (modifyRecord s e f).userDb = s.userDb := by
  unfold modifyRecord; split <;> rfl

theorem modifyRecord_contextStore (s : SysState) (e : String)
    (f : TelemetryRecord → TelemetryRecord) :
    (modifyRecord s e f).contextStore = s.contextStore := by
  unfold modifyRecord; split <;> rfl

theorem modifyRecord_timers (s : SysState) (e : String)
    (f : TelemetryRecord → TelemetryRecord) :
    (modifyRecord s e f).timers = s.timers := by
  unfold modifyRecord; split <;> rfl

theorem modifyRecord_clock (s : SysState) (e : String)
    (f : TelemetryRecord → TelemetryRecord) :
    (modifyRecord s e f).clock = s.clock := by
  unfold modifyRecord; split <;> rfl

theorem recordLog_telemetry_ne (s : SysState) (e msg : String) (e2 : String) (h : e ≠ e2) :
    alookup (recordLog s e msg).telemetry e2 = alookup s.telemetry e2 := by
  simp [recordLog, modifyRecord_telemetry_ne _ _ _ _ h]

theorem recordLog_lookup_some (s : SysState) (e msg : String) (r : TelemetryRecord)
    (h : alookup s.telemetry e = some r) :
    alookup (recordLog s e msg).telemetry e =
      some { r with logs := r.logs ++ [(s.clock, msg)] } := by
  simp [recordLog, modifyRecord_eq_some _ _ _ _ h, alookup_aupdate_self]

theorem recordLog_userEvents (s : SysState) (e msg : String) :
    (recordLog s e msg).userEvents = s.userEvents := by
  simp [recordLog, modifyRecord_userEvents]

theorem recordLog_eventOrder (s : SysState) (e msg : String) :
    (recordLog s e msg).eventOrder = s.eventOrder := by
  simp [recordLog, modifyRecord_eventOrder]

theorem recordLog_userDb (s : SysState) (e msg : String) :
    (recordLog s e msg).userDb = s.userDb := by
  simp [recordLog, modifyRecord_userDb]

theorem recordLog_contextStore (s : SysState) (e msg : String) :
    (recordLog s e msg).contextStore = s.contextStore := by
  simp [recordLog, modifyRecord_contextStore]

theorem recordLog_timers (s : SysState) (e msg : String) :
    (recordLog s e msg).timers = s.timers := by
  simp [recordLog, modifyRecord_timers]

theorem recordLog_clock (s : SysState) (e msg : String) :
    (recordLog s e msg).clock = s.clock := by
  simp [recordLog, modifyRecord_clock]

theorem sendNotification_telemetry_ne (s : SysState) (b : DispatchBody) (fid e2 : String)
    (h : jsOrStr b.event_id fid ≠ e2) :
    alookup (sendNotification s b fid).1.telemetry e2 = alookup s.telemetry e2 := by
  cases hha : truthy (dispatchCtx s b).has_app <;>
    cases hia : truthy (dispatchCtx s b).is_active <;>
      cases hdo : truthy (dispatchCtx s b).device_online <;>
        cases hwa : truthy (dispatchCtx s b).whatsapp_opt_in <;>
          simp [sendNotification, routeTo, pushUserEvent, hha, hia, hdo, hwa,
            modifyRecord_telemetry_ne _ _ _ _ h, recordLog_telemetry_ne _ _ _ _ h,
            alookup_aupdate_ne _ _ _ _ h]

theorem sendNotification_contextStore (s : SysState) (b : DispatchBody) (fid : String) :
    (sendNotification s b fid).1.contextStore = s.contextStore := by
  cases hha : truthy (dispatchCtx s b).has_app <;>
    cases hia : truthy (dispatchCtx s b).is_active <;>
      cases hdo : truthy (dispatchCtx s b).device_online <;>
        cases hwa : truthy (dispatchCtx s b).whatsapp_opt_in <;>
          simp [sendNotification, routeTo, pushUserEvent, hha, hia, hdo, hwa,
            modifyRecord_contextStore, recordLog_contextStore]

theorem sendNotification_userDb (s : SysState) (b : DispatchBody) (fid : String) :
    (sendNotification s b fid).1.userDb = s.userDb := by
  cases hha : truthy (dispatchCtx s b).has_app <;>
    cases hia : truthy (dispatchCtx s b).is_active <;>
      cases hdo : truthy (dispatchCtx s b).device_online <;>
        cases hwa : truthy (dispatchCtx s b).whatsapp_opt_in <;>
          simp [sendNotification, routeTo, pushUserEvent, hha, hia, hdo, hwa,
            modifyRecord_userDb, recordLog_userDb]

theorem sendNotification_clock (s : SysState) (b : DispatchBody) (fid : String) :
    (sendNotification s b fid).1.clock = s.clock := by
  cases hha : truthy (dispatchCtx s b).has_app <;>
    cases hia : truthy (dispatchCtx s b).is_active <;>
      cases hdo : truthy (dispatchCtx s b).device_online <;>
        cases hwa : truthy (dispatchCtx s b).whatsapp_opt_in <;>
          simp [sendNotification, routeTo, pushUserEvent, hha, hia, hdo, hwa,
            modifyRecord_clock, recordLog_clock]

theorem sendNotification_userEvents (s : SysState) (b : DispatchBody) (fid : String) :
    (sendNotification s b fid).1.userEvents =
      aupdate s.userEvents (jsOrStr b.user_id "demo_user")
        (((alookup s.userEvents (jsOrStr b.user_id "demo_user")).getD []) ++
          [jsOrStr b.event_id fid]) := by
  cases hha : truthy (dispatchCtx s b).has_app <;>
    cases hia : truthy (dispatchCtx s b).is_active <;>
      cases hdo : truthy (dispatchCtx s b).device_online <;>
        cases hwa : truthy (dispatchCtx s b).whatsapp_opt_in <;>
          simp [sendNotification, routeTo, pushUserEvent, hha, hia, hdo, hwa,
            modifyRecord_userEvents, recordLog_userEvents]


/-! ## `/ack` lemmas -/

theorem ackHandler_none (s : SysState) (e c : String)
    (h : alookup s.telemetry e = none) : ackHandler s e c = s := by
  simp [ackHandler, h]

theorem ackHandler_lookup_self (s : SysState) (e c : String) (r : TelemetryRecord)
    (h : alookup s.telemetry e = some r) :
    alookup (ackHandler s e c).telemetry e =
      some { r with ack_ts := some s.clock,
                    logs := r.logs ++ [(s.clock, "ACK received via " ++ c)] } := by
  have h1 : alookup (aupdate s.telemetry e { r with ack_ts := some s.clock }) e =
      some { r with ack_ts := some s.clock } := alookup_aupdate_self _ _ _
  simp [ackHandler, h]
  have := recordLog_lookup_some
    { s with telemetry := aupdate s.telemetry e { r with ack_ts := some s.clock } }
    e ("ACK received via " ++ c) _ h1
  simpa using this

theorem ackHandler_telemetry_ne (s : SysState) (e c e2 : String) (h : e ≠ e2) :
    alookup (ackHandler s e c).telemetry e2 = alookup s.telemetry e2 := by
  unfold ackHandler
  cases hl : alookup s.telemetry e with
  | none => rfl
  | some r =>
      simp [recordLog_telemetry_ne _ _ _ _ h, alookup_aupdate_ne _ _ _ _ h]

theorem ackHandler_userEvents (s : SysState) (e c : String) :
    (ackHandler s e c).userEvents = s.userEvents := by
  unfold ackHandler
  cases hl : alookup s.telemetry e with
  | none => rfl
  | some r => simp [recordLog_userEvents]

theorem ackHandler_eventOrder (s : SysState) (e c : String) :
    (ackHandler s e c).eventOrder = s.eventOrder := by
  unfold ackHandler
  cases hl : alookup s.telemetry e with
  | none => rfl
  | some r => simp [recordLog_eventOrder]

theorem ackHandler_userDb (s : SysState) (e c : String) :
    (ackHandler s e c).userDb = s.userDb := by
  unfold ackHandler
  cases hl : alookup s.telemetry e with
  | none => rfl
  | some r => simp [recordLog_userDb]

theorem ackHandler_contextStore (s : SysState) (e c : String) :
    (ackHandler s e c).contextStore = s.contextStore := by
  unfold ackHandler
  cases hl : alookup s.telemetry e with
  | none => rfl
  | some r => simp [recordLog_contextStore]

theorem ackHandler_timers (s : SysState) (e c : String) :
    (ackHandler s e c).timers = s.timers := by
  unfold ackHandler
  cases hl : alookup s.telemetry e with
  | none => rfl
  | some r => simp [recordLog_timers]

theorem ackHandler_clock (s : SysState) (e c : String) :
    (ackHandler s e c).clock = s.clock := by
  unfold ackHandler
  cases hl : alookup s.telemetry e with
  | none => rfl
  | some r => simp [recordLog_clock]


/-! ## Timer-expiry lemmas -/

theorem fireTimer_none (s : SysState) (i : Nat) (h : s.timers[i]? = none) :
    fireTimer s i = s := by
  simp [fireTimer, h]

theorem fireTimer_no_record (s : SysState) (i : Nat) (t : Timer)
    (ht : s.timers[i]? = some t) (h : alookup s.telemetry t.event_id = none) :
    fireTimer s i = { s with timers := s.timers.eraseIdx i } := by
  simp [fireTimer, ht, h]

theorem fireTimer_acked (s : SysState) (i : Nat) (t : Timer) (r : TelemetryRecord)
    (ht : s.timers[i]? = some t) (h : alookup s.telemetry t.event_id = some r)
    (ha : r.ack_ts.isSome) :
    fireTimer s i = { s with timers := s.timers.eraseIdx i } := by
  simp [fireTimer, ht, h, ha]

theorem fireTimer_commit (s : SysState) (i : Nat) (t : Timer) (r : TelemetryRecord)
    (ht : s.timers[i]? = some t) (h : alookup s.telemetry t.event_id = some r)
    (ha : r.ack_ts = none) :
    fireTimer s i =
      recordLog { s with timers := s.timers.eraseIdx i,
                         telemetry := aupdate s.telemetry t.event_id
                           { r with fallback_triggered := true,
                                    fallback_channel := some (timerFallback t) } }
        t.event_id ("No ACK -> Fallback to " ++ timerFallback t) := by
  simp [fireTimer, ht, h, ha]

theorem fireTimer_commit_lookup (s : SysState) (i : Nat) (t : Timer) (r : TelemetryRecord)
    (ht : s.timers[i]? = some t) (h : alookup s.telemetry t.event_id = some r)
    (ha : r.ack_ts = none) :
    alookup (fireTimer s i).telemetry t.event_id =
      some { r with fallback_triggered := true,
                    fallback_channel := some (timerFallback t),
                    logs := r.logs ++
                      [(s.clock, "No ACK -> Fallback to " ++ timerFallback t)] } := by
  rw [fireTimer_commit s i t r ht h ha]
  have h1 : alookup (aupdate s.telemetry t.event_id
      { r with fallback_triggered := true, fallback_channel := some (timerFallback t) })
      t.event_id =
      some { r with fallback_triggered := true, fallback_channel := some (timerFallback t) } :=
    alookup_aupdate_self _ _ _
  have := recordLog_lookup_some
    { s with timers := s.timers.eraseIdx i,
             telemetry := aupdate s.telemetry t.event_id
               { r with fallback_triggered := true,
                        fallback_channel := some (timerFallback t) } }
    t.event_id ("No ACK -> Fallback to " ++ timerFallback t) _ h1
  simpa using this

theorem fireTimer_telemetry_ne (s : SysState) (i : Nat) (e2 : String)
    (h : ∀ t, s.timers[i]? = some t → t.event_id ≠ e2) :
    alookup (fireTimer s i).telemetry e2 = alookup s.telemetry e2 := by
  cases ht : s.timers[i]? with
  | none => rw [fireTimer_none s i ht]
  | some t =>
      have hne := h t ht
      cases hl : alookup s.telemetry t.event_id with
      | none => rw [fireTimer_no_record s i t ht hl]
      | some r =>
          cases ha : r.ack_ts with
          | some v =>
              rw [fireTimer_acked s i t r ht hl (by simp [ha])]
          | none =>
              rw [fireTimer_commit s i t r ht hl ha]
              rw [recordLog_telemetry_ne _ _ _ _ hne]
              simp [alookup_aupdate_ne _ _ _ _ hne]

theorem fireTimer_timers (s : SysState) (i : Nat) :
    (fireTimer s i).timers = s.timers.eraseIdx i := by
  cases ht : s.timers[i]? with
  | none =>
      rw [fireTimer_none s i ht]
      have hle : s.timers.length ≤ i := by
        by_contra hh
        push_neg at hh
        simp [List.getElem?_eq_getElem hh] at ht
      rw [List.eraseIdx_of_length_le hle]
  | some t =>
      cases hl : alookup s.telemetry t.event_id with
      | none => rw [fireTimer_no_record s i t ht hl]
      | some r =>
          cases ha : r.ack_ts with
          | some v => rw [fireTimer_acked s i t r ht hl (by simp [ha])]
          | none =>
              rw [fireTimer_commit s i t r ht hl ha]
              simp [recordLog_timers]

theorem fireTimer_userEvents (s : SysState) (i : Nat) :
    (fireTimer s i).userEvents = s.userEvents := by
  cases ht : s.timers[i]? with
  | none => rw [fireTimer_none s i ht]
  | some t =>
      cases hl : alookup s.telemetry t.event_id with
      | none => rw [fireTimer_no_record s i t ht hl]
      | some r =>
          cases ha : r.ack_ts with
          | some v => rw [fireTimer_acked s i t r ht hl (by simp [ha])]
          | none =>
              rw [fireTimer_commit s i t r ht hl ha]
              simp [recordLog_userEvents]

theorem fireTimer_eventOrder (s : SysState) (i : Nat) :
    (fireTimer s i).eventOrder = s.eventOrder := by
  cases ht : s.timers[i]? with
  | none => rw [fireTimer_none s i ht]
  | some t =>
      cases hl : alookup s.telemetry t.event_id with
      | none => rw [fireTimer_no_record s i t ht hl]
      | some r =>
          cases ha : r.ack_ts with
          | some v => rw [fireTimer_acked s i t r ht hl (by simp [ha])]
          | none =>
              rw [fireTimer_commit s i t r ht hl ha]
              simp [recordLog_eventOrder]

theorem fireTimer_userDb (s : SysState) (i : Nat) :
    (fireTimer s i).userDb = s.userDb := by
  cases ht : s.timers[i]? with
  | none => rw [fireTimer_none s i ht]
  | some t =>
      cases hl : alookup s.telemetry t.event_id with
      | none => rw [fireTimer_no_record s i t ht hl]
      | some r =>
          cases ha : r.ack_ts with
          | some v => rw [fireTimer_acked s i t r ht hl (by simp [ha])]
          | none =>
              rw [fireTimer_commit s i t r ht hl ha]
              simp [recordLog_userDb]

theorem fireTimer_contextStore (s : SysState) (i : Nat) :
    (fireTimer s i).contextStore = s.contextStore := by
  cases ht : s.timers[i]? with
  | none => rw [fireTimer_none s i ht]
  | some t =>
      cases hl : alookup s.telemetry t.event_id with
      | none => rw [fireTimer_no_record s i t ht hl]
      | some r =>
          cases ha : r.ack_ts with
          | some v => rw [fireTimer_acked s i t r ht hl (by simp [ha])]
          | none =>
              rw [fireTimer_commit s i t r ht hl ha]
              simp [recordLog_contextStore]

theorem fireTimer_clock (s : SysState) (i : Nat) :
    (fireTimer s i).clock = s.clock := by
  cases ht : s.timers[i]? with
  | none => rw [fireTimer_none s i ht]
  | some t =>
      cases hl : alookup s.telemetry t.event_id with
      | none => rw [fireTimer_no_record s i t ht hl]
      | some r =>
          cases ha : r.ack_ts with
          | some v => rw [fireTimer_acked s i t r ht hl (by simp [ha])]
          | none =>
              rw [fireTimer_commit s i t r ht hl ha]
              simp [recordLog_clock]


/-! ## `/login` lemmas -/

theorem login_resp (s : SysState) (u d fid : String) :
    (login s u d fid).2 =
      (if ((alookup s.contextStore u).getD emptyCtx).device_status = some "KNOWN" then
        { status := "TRUSTED", event_id := fid, chosen_channel := "IN_APP" }
      else
        { status := "BINDING_REQUIRED", event_id := fid,
          chosen_channel := "SMS_BINDING" }) := by
  by_cases h : ((alookup s.contextStore u).getD emptyCtx).device_status = some "KNOWN" <;>
    simp [login, h]

theorem login_record (s : SysState) (u d fid : String) :
    ∃ r, alookup (login s u d fid).1.telemetry fid = some r ∧
      r.event_id = fid ∧ r.user_id = u ∧ r.ack_ts = none ∧
      r.fallback_triggered = false ∧ r.fallback_channel = none := by
  by_cases h : ((alookup s.contextStore u).getD emptyCtx).device_status = some "KNOWN" <;>
    simp [login, h, recordLog, modifyRecord_eq_some, alookup_aupdate_self, pushUserEvent]

theorem login_telemetry_ne (s : SysState) (u d fid e2 : String) (h : fid ≠ e2) :
    alookup (login s u d fid).1.telemetry e2 = alookup s.telemetry e2 := by
  by_cases hk : ((alookup s.contextStore u).getD emptyCtx).device_status = some "KNOWN" <;>
    simp [login, hk, pushUserEvent, recordLog_telemetry_ne _ _ _ _ h,
      modifyRecord_telemetry_ne _ _ _ _ h, alookup_aupdate_ne _ _ _ _ h]

theorem login_timers (s : SysState) (u d fid : String) :
    (login s u d fid).1.timers = s.timers := by
  by_cases hk : ((alookup s.contextStore u).getD emptyCtx).device_status = some "KNOWN" <;>
    simp [login, hk, pushUserEvent, recordLog_timers, modifyRecord_timers]

theorem login_userDb (s : SysState) (u d fid : String) :
    (login s u d fid).1.userDb = s.userDb := by
  by_cases hk : ((alookup s.contextStore u).getD emptyCtx).device_status = some "KNOWN" <;>
    simp [login, hk, pushUserEvent, recordLog_userDb, modifyRecord_userDb]

theorem login_contextStore (s : SysState) (u d fid : String) :
    (login s u d fid).1.contextStore = s.contextStore := by
  by_cases hk : ((alookup s.contextStore u).getD emptyCtx).device_status = some "KNOWN" <;>
    simp [login, hk, pushUserEvent, recordLog_contextStore, modifyRecord_contextStore]

theorem login_clock (s : SysState) (u d fid : String) :
    (login s u d fid).1.clock = s.clock := by
  by_cases hk : ((alookup s.contextStore u).getD emptyCtx).device_status = some "KNOWN" <;>
    simp [login, hk, pushUserEvent, recordLog_clock, modifyRecord_clock]

theorem login_userEvents (s : SysState) (u d fid : String) :
    (login s u d fid).1.userEvents =
      aupdate s.userEvents u (((alookup s.userEvents u).getD []) ++ [fid]) := by
  by_cases hk : ((alookup s.contextStore u).getD emptyCtx).device_status = some "KNOWN" <;>
    simp [login, hk, pushUserEvent, recordLog_userEvents, modifyRecord_userEvents]

/-! ## `/complete-binding` lemmas -/

theorem completeBinding_userDb (s : SysState) (u d : String) (eo : Option String) :
    (completeBinding s u d eo).userDb =
      aupdate s.userDb u { registered_device_id := d, is_registered := true } := by
  unfold completeBinding
  cases eo with
  | none => rfl
  | some eid =>
      by_cases he : eid = ""
      · simp [he]
      · simp only [he, if_false]
        cases hl : alookup s.telemetry eid with
        | none => simp [hl]
        | some r => simp [hl, recordLog_userDb]

theorem completeBinding_contextStore (s : SysState) (u d : String) (eo : Option String) :
    (completeBinding s u d eo).contextStore = s.contextStore := by
  unfold completeBinding
  cases eo with
  | none => rfl
  | some eid =>
      by_cases he : eid = ""
      · simp [he]
      · simp only [he, if_false]
        cases hl : alookup s.telemetry eid with
        | none => simp [hl]
        | some r => simp [hl, recordLog_contextStore]

theorem completeBinding_timers (s : SysState) (u d : String) (eo : Option String) :
    (completeBinding s u d eo).timers = s.timers := by
  unfold completeBinding
  cases eo with
  | none => rfl
  | some eid =>
      by_cases he : eid = ""
      · simp [he]
      · simp only [he, if_false]
        cases hl : alookup s.telemetry eid with
        | none => simp [hl]
        | some r => simp [hl, recordLog_timers]

theorem completeBinding_userEvents (s : SysState) (u d : String) (eo : Option String) :
    (completeBinding s u d eo).userEvents = s.userEvents := by
  unfold completeBinding
  cases eo with
  | none => rfl
  | some eid =>
      by_cases he : eid = ""
      · simp [he]
      · simp only [he, if_false]
        cases hl : alookup s.telemetry eid with
        | none => simp [hl]
        | some r => simp [hl, recordLog_userEvents]

theorem completeBinding_clock (s : SysState) (u d : String) (eo : Option String) :
    (completeBinding s u d eo).clock = s.clock := by
  unfold completeBinding
  cases eo with
  | none => rfl
  | some eid =>
      by_cases he : eid = ""
      · simp [he]
      · simp only [he, if_false]
        cases hl : alookup s.telemetry eid with
        | none => simp [hl]
        | some r => simp [hl, recordLog_clock]

theorem completeBinding_telemetry_ne (s : SysState) (u d : String) (eo : Option String)
    (e2 : String) (h : eo ≠ some e2) :
    alookup (completeBinding s u d eo).telemetry e2 = alookup s.telemetry e2 := by
  unfold completeBinding
  cases eo with
  | none => rfl
  | some eid =>
      have hne : eid ≠ e2 := by
        intro hh
        exact h (by rw [hh])
      by_cases he : eid = ""
      · simp [he]
      · simp only [he, if_false]
        cases hl : alookup s.telemetry eid with
        | none => simp [hl]
        | some r =>
            simp [hl, recordLog_telemetry_ne _ _ _ _ hne, alookup_aupdate_ne _ _ _ _ hne]

theorem completeBinding_ack_lookup (s : SysState) (u d eid : String)
    (r : TelemetryRecord) (he : eid ≠ "") (hl : alookup s.telemetry eid = some r) :
    alookup (completeBinding s u d (some eid)).telemetry eid =
      some { r with ack_ts := some s.clock,
                    logs := r.logs ++
                      [(s.clock, "Encrypted SMS received at Bank Server."),
                       (s.clock, "Registry Updated: Replaced old with new.")] } := by
  unfold completeBinding
  simp only [he, if_false, hl]
  have h1 : alookup (aupdate s.telemetry eid { r with ack_ts := some s.clock }) eid =
      some { r with ack_ts := some s.clock } := alookup_aupdate_self _ _ _
  have h2 := recordLog_lookup_some
    { s with userDb := aupdate s.userDb u { registered_device_id := d, is_registered := true },
             telemetry := aupdate s.telemetry eid { r with ack_ts := some s.clock } }
    eid "Encrypted SMS received at Bank Server." _ h1
  have h3 := recordLog_lookup_some _ eid "Registry Updated: Replaced old with new." _ h2
  simp only [recordLog_clock] at h3
  simpa using h3

/-! ## `/update-context` lemmas -/

theorem updateContext_telemetry (s : SysState) (uo : Option String) (c : PartialCtx) :
    (updateContext s uo c).telemetry = s.telemetry := rfl

theorem updateContext_timers (s : SysState) (uo : Option String) (c : PartialCtx) :
    (updateContext s uo c).timers = s.timers := rfl

theorem updateContext_userEvents (s : SysState) (uo : Option String) (c : PartialCtx) :
    (updateContext s uo c).userEvents = s.userEvents := rfl

theorem updateContext_userDb (s : SysState) (uo : Option String) (c : PartialCtx) :
    (updateContext s uo c).userDb = s.userDb := rfl

theorem updateContext_clock (s : SysState) (uo : Option String) (c : PartialCtx) :
    (updateContext s uo c).clock = s.clock := rfl


theorem completeBinding_empty_telemetry (s : SysState) (u d : String) :
    (completeBinding s u d (some "")).telemetry = s.telemetry := by
  simp [completeBinding]

/-- Any stimulus that does not re-create the record stored under `e`
keeps an acknowledged record acknowledged and leaves its
`fallback_triggered` flag untouched: the timer guard makes expiry a
no-op, and every other mutation path only stamps `ack_ts` anew or
appends logs. -/
theorem step_preserves_acked (s : SysState) (op : Op) (e : String) (r : TelemetryRecord)
    (hop : createsEvent op e = false)
    (hr : alookup s.telemetry e = some r) (ha : r.ack_ts.isSome) :
    ∃ r2, alookup (step s op).telemetry e = some r2 ∧ r2.ack_ts.isSome ∧
      r2.fallback_triggered = r.fallback_triggered := by
  cases op with
  | dispatch b fid =>
      have hne : jsOrStr b.event_id fid ≠ e := by simpa [createsEvent] using hop
      refine ⟨r, ?_, ha, rfl⟩
      simpa [step, sendNotification_telemetry_ne s b fid e hne] using hr
  | ack e2 c =>
      by_cases he : e2 = e
      · subst he
        exact ⟨_, by simpa [step] using ackHandler_lookup_self s e2 c r hr,
          by simp, by simp⟩
      · refine ⟨r, ?_, ha, rfl⟩
        simpa [step, ackHandler_telemetry_ne s e2 c e (by exact he)] using hr
  | fire i =>
      cases ht : s.timers[i]? with
      | none =>
          refine ⟨r, ?_, ha, rfl⟩
          simpa [step, fireTimer_none s i ht] using hr
      | some t =>
          by_cases hte : t.event_id = e
          · have hlt : alookup s.telemetry t.event_id = some r := by rw [hte]; exact hr
            refine ⟨r, ?_, ha, rfl⟩
            rw [show (step s (.fire i)).telemetry = (fireTimer s i).telemetry from by
              simp [step]]
            rw [fireTimer_acked s i t r ht hlt ha]
            exact hr
          · refine ⟨r, ?_, ha, rfl⟩
            have hne : ∀ t2, s.timers[i]? = some t2 → t2.event_id ≠ e := by
              intro t2 ht2
              rw [ht] at ht2
              cases ht2
              exact hte
            simpa [step, fireTimer_telemetry_ne s i e hne] using hr
  | login u d fid =>
      have hne : fid ≠ e := by simpa [createsEvent] using hop
      refine ⟨r, ?_, ha, rfl⟩
      simpa [step, login_telemetry_ne s u d fid e hne] using hr
  | completeBinding u d eo =>
      by_cases heo : eo = some e
      · subst heo
        by_cases hee : e = ""
        · subst hee
          refine ⟨r, ?_, ha, rfl⟩
          simpa [step, completeBinding_empty_telemetry] using hr
        · exact ⟨_, by simpa [step] using completeBinding_ack_lookup s u d e r hee hr,
            by simp, by simp⟩
      · refine ⟨r, ?_, ha, rfl⟩
        simpa [step, completeBinding_telemetry_ne s u d eo e heo] using hr
  | updateContext uo c =>
      refine ⟨r, ?_, ha, rfl⟩
      simpa [step, updateContext_telemetry] using hr

/-- Lift of `step_preserves_acked` to a whole sequence of stimuli. -/
theorem run_preserves_acked (ops : List Op) (s : SysState) (e : String)
    (r : TelemetryRecord) (hops : ∀ op ∈ ops, createsEvent op e = false)
    (hr : alookup s.telemetry e = some r) (ha : r.ack_ts.isSome) :
    ∃ r2, alookup (run s ops).telemetry e = some r2 ∧ r2.ack_ts.isSome ∧
      r2.fallback_triggered = r.fallback_triggered := by
  induction ops generalizing s r with
  | nil => exact ⟨r, hr, ha, rfl⟩
  | cons op rest ih =>
      obtain ⟨r2, hl2, ha2, hf2⟩ :=
        step_preserves_acked s op e r (hops op (by simp)) hr ha
      obtain ⟨r3, hl3, ha3, hf3⟩ :=
        ih (step s op) r2 (fun o ho => hops o (List.mem_cons_of_mem _ ho)) hl2 ha2
      refine ⟨r3, ?_, ha3, hf3.trans hf2⟩
      simpa [run] using hl3


/-! ## Claim theorems -/

/-- C2: the channel chosen by a dispatch is exactly the spec's priority
cascade over the (merged) context snapshot — `has_app ∧ is_active ∧
device_online` gives IN_APP, else `has_app ∧ device_online` gives PUSH,
else `whatsapp_opt_in ∧ device_online` gives WHATSAPP, else SMS — for
every state, body and generated id, deterministically. -/
theorem dispatch_channel_priority_cascade (s : SysState) (b : DispatchBody) (fid : String) :
    (sendNotification s b fid).2.chosen_channel =
      selectSpec (truthy (dispatchCtx s b).has_app) (truthy (dispatchCtx s b).is_active)
        (truthy (dispatchCtx s b).device_online)
        (truthy (dispatchCtx s b).whatsapp_opt_in) := by
  rw [sendNotification_resp]
  cases hha : truthy (dispatchCtx s b).has_app <;>
    cases hia : truthy (dispatchCtx s b).is_active <;>
      cases hdo : truthy (dispatchCtx s b).device_online <;>
        cases hwa : truthy (dispatchCtx s b).whatsapp_opt_in <;>
          simp [selectChannel, selectSpec, hha, hia, hdo, hwa]

/-- C1: once `acknowledge(event_id)` lands before the deadline (the ack
stimulus precedes any timer expiry), `fallback_triggered` stays false
forever after for that record — a later timer firing is a no-op thanks
to its `ack_ts` check — under any continuation that does not re-create
the record. -/
theorem ack_before_deadline_blocks_fallback (s : SysState) (e c : String) (ops : List Op)
    (r : TelemetryRecord) (hr : alookup s.telemetry e = some r)
    (hf : r.fallback_triggered = false)
    (hops : ∀ op ∈ ops, createsEvent op e = false) :
    ∃ r2, alookup (run (step s (.ack e c)) ops).telemetry e = some r2 ∧
      r2.fallback_triggered = false := by
  have hstep : alookup (step s (.ack e c)).telemetry e =
      some { r with ack_ts := some s.clock,
                    logs := r.logs ++ [(s.clock, "ACK received via " ++ c)] } := by
    simpa [step] using ackHandler_lookup_self s e c r hr
  obtain ⟨r2, hl, ha, hfeq⟩ := run_preserves_acked ops _ e _ hops hstep (by simp)
  exact ⟨r2, hl, by simpa [hf] using hfeq⟩

theorem ack_before_deadline_blocks_fallback_witness :
    ∃ r2, alookup (run (step (run initState [.dispatch pushBody "g"]) (.ack "e1" "PUSH"))
        [.fire 0]).telemetry "e1" = some r2 ∧ r2.fallback_triggered = false :=
  ack_before_deadline_blocks_fallback (run initState [.dispatch pushBody "g"]) "e1" "PUSH"
    [.fire 0]
    { event_id := "e1", user_id := "demo_user", event_type := "LOGIN_OTP",
      chosen_channel := some "PUSH", sent_ts := some 0, ack_ts := none,
      fallback_triggered := false, fallback_channel := none,
      logs := [(0, "Route: PUSH (Background notification)")] }
    (by decide) (by decide)
    (fun op h => by rw [List.mem_singleton.mp h]; decide)

/-- C3: a dispatch that routes to PUSH or WHATSAPP arms one timer, and
firing that timer with no acknowledgment in between commits
`fallback_triggered = true` with `fallback_channel` = WHATSAPP if the
captured context opted into WhatsApp else SMS for the PUSH channel, and
always SMS for the WHATSAPP channel. -/
theorem unacked_deadline_commits_fallback (s : SysState) (b : DispatchBody) (fid : String)
    (hch : selectChannel (dispatchCtx s b) = "PUSH" ∨
      selectChannel (dispatchCtx s b) = "WHATSAPP") :
    ∃ r, alookup (fireTimer (sendNotification s b fid).1 s.timers.length).telemetry
        (jsOrStr b.event_id fid) = some r ∧
      r.fallback_triggered = true ∧
      r.fallback_channel = some (if selectChannel (dispatchCtx s b) = "PUSH" then
        (if truthy (dispatchCtx s b).whatsapp_opt_in then "WHATSAPP" else "SMS")
      else "SMS") := by
  have htimers := sendNotification_timers s b fid
  rw [if_pos hch] at htimers
  have ht : (sendNotification s b fid).1.timers[s.timers.length]? =
      some { event_id := jsOrStr b.event_id fid, kind := selectChannel (dispatchCtx s b),
             ctx_whatsapp_opt_in := (dispatchCtx s b).whatsapp_opt_in } := by
    rw [htimers]
    rw [List.getElem?_append_right (Nat.le_refl _)]
    simp
  obtain ⟨r0, hl0, _, _, _, _, _, hack, _, _, _⟩ := sendNotification_record s b fid
  have hcl := fireTimer_commit_lookup (sendNotification s b fid).1 s.timers.length
    _ r0 ht (by simpa using hl0) hack
  refine ⟨_, by simpa using hcl, by simp, ?_⟩
  simp [timerFallback]

theorem unacked_deadline_commits_fallback_witness :
    selectChannel (dispatchCtx initState pushBody) = "PUSH" ∧
    (∃ r, alookup (fireTimer (sendNotification initState pushBody "g").1
          initState.timers.length).telemetry (jsOrStr pushBody.event_id "g") = some r ∧
      r.fallback_triggered = true ∧
      r.fallback_channel = some (if selectChannel (dispatchCtx initState pushBody) = "PUSH"
        then (if truthy (dispatchCtx initState pushBody).whatsapp_opt_in then "WHATSAPP"
          else "SMS")
        else "SMS")) :=
  ⟨by decide, unacked_deadline_commits_fallback initState pushBody "g" (Or.inl (by decide))⟩

/-- C4 as stated is false: `/ack` overwrites `ack_ts` unconditionally, so
a second acknowledgment at a later instant yields a different final
`ack_ts` than a single acknowledgment, and a re-dispatch of the same
event id reverts `ack_ts` to null. -/
theorem ack_idempotence_counterexample :
    ((alookup (run initState [.dispatch pushBody "g", .ack "e1" "PUSH"]).telemetry
        "e1").map TelemetryRecord.ack_ts = some (some 1)) ∧
    ((alookup (run initState
        [.dispatch pushBody "g", .ack "e1" "PUSH", .ack "e1" "PUSH"]).telemetry
        "e1").map TelemetryRecord.ack_ts = some (some 2)) ∧
    ((alookup (run initState
        [.dispatch pushBody "g", .ack "e1" "PUSH", .dispatch pushBody "g"]).telemetry
        "e1").map TelemetryRecord.ack_ts = some none) ∧
    some (2 : Nat) ≠ some 1 := by
  refine ⟨by decide, by decide, by decide, by decide⟩

/-- C4 amended: `acknowledge` always stamps `ack_ts` with the time of the
latest call — a second acknowledgment overwrites the first — and once
`ack_ts` is non-null it stays non-null under every continuation that does
not re-create the record (only a re-dispatch of the same event id resets
it). -/
theorem ack_latest_write_wins (s : SysState) (e c c2 : String) (r : TelemetryRecord)
    (ops : List Op) (hr : alookup s.telemetry e = some r)
    (hops : ∀ op ∈ ops, createsEvent op e = false) :
    (∃ r1, alookup (step s (.ack e c)).telemetry e = some r1 ∧
       r1.ack_ts = some s.clock) ∧
    (∃ r2, alookup (step (step s (.ack e c)) (.ack e c2)).telemetry e = some r2 ∧
       r2.ack_ts = some (s.clock + 1)) ∧
    (∃ r3, alookup (run (step s (.ack e c)) ops).telemetry e = some r3 ∧
       r3.ack_ts.isSome) := by
  have h1 : alookup (step s (.ack e c)).telemetry e =
      some { r with ack_ts := some s.clock,
                    logs := r.logs ++ [(s.clock, "ACK received via " ++ c)] } := by
    simpa [step] using ackHandler_lookup_self s e c r hr
  have hc : (step s (.ack e c)).clock = s.clock + 1 := by
    simp [step]
  refine ⟨⟨_, h1, by simp⟩, ?_, ?_⟩
  · have h2 := ackHandler_lookup_self (step s (.ack e c)) e c2 _ h1
    rw [hc] at h2
    exact ⟨_, by simpa [step] using h2, by simp⟩
  · obtain ⟨r3, hl3, ha3, _⟩ := run_preserves_acked ops _ e _ hops h1 (by simp)
    exact ⟨r3, hl3, ha3⟩

theorem ack_latest_write_wins_witness :
    (∃ r1, alookup (step (run initState [.dispatch pushBody "g"])
        (.ack "e1" "PUSH")).telemetry "e1" = some r1 ∧
      r1.ack_ts = some (run initState [.dispatch pushBody "g"]).clock) ∧
    (∃ r2, alookup (step (step (run initState [.dispatch pushBody "g"]) (.ack "e1" "PUSH"))
        (.ack "e1" "IN_APP")).telemetry "e1" = some r2 ∧
      r2.ack_ts = some ((run initState [.dispatch pushBody "g"]).clock + 1)) ∧
    (∃ r3, alookup (run (step (run initState [.dispatch pushBody "g"]) (.ack "e1" "PUSH"))
        []).telemetry "e1" = some r3 ∧ r3.ack_ts.isSome) :=
  ack_latest_write_wins (run initState [.dispatch pushBody "g"]) "e1" "PUSH" "IN_APP"
    { event_id := "e1", user_id := "demo_user", event_type := "LOGIN_OTP",
      chosen_channel := some "PUSH", sent_ts := some 0, ack_ts := none,
      fallback_triggered := false, fallback_channel := none,
      logs := [(0, "Route: PUSH (Background notification)")] }
    [] (by decide) (fun op h => absurd h (List.not_mem_nil op))


/-- C5 as stated is false: the login trust decision reads the stored
simulated context's `device_status` flag and never consults the device
registry, so with `device_status = NEW` a login from the freshly bound
device still returns BINDING_REQUIRED. -/
theorem binding_then_login_counterexample :
    ((run initState [.updateContext (some "demo_user") { device_status := some "NEW" },
        .completeBinding "demo_user" "device_999" none]).userDb.map
      (fun p => (p.1, p.2.registered_device_id)) = [("demo_user", "device_999")]) ∧
    (login (run initState
        [.updateContext (some "demo_user") { device_status := some "NEW" },
         .completeBinding "demo_user" "device_999" none])
      "demo_user" "device_999" "ev1").2.status = "BINDING_REQUIRED" ∧
    ("BINDING_REQUIRED" : String) ≠ "TRUSTED" := by
  refine ⟨by decide, by decide, by decide⟩

/-- C5 amended: after `completeBinding`, a fresh `loginAttempt` returns
TRUSTED with channel IN_APP exactly when the user's stored simulated
context carries `device_status = "KNOWN"`, and BINDING_REQUIRED with
channel SMS_BINDING otherwise — the device identifier plays no role in
the decision. -/
theorem login_status_follows_device_flag (s : SysState) (u d : String)
    (eo : Option String) (fid : String) :
    (login (completeBinding s u d eo) u d fid).2 =
      (if ((alookup s.contextStore u).getD emptyCtx).device_status = some "KNOWN" then
        { status := "TRUSTED", event_id := fid, chosen_channel := "IN_APP" }
      else
        { status := "BINDING_REQUIRED", event_id := fid,
          chosen_channel := "SMS_BINDING" }) := by
  rw [login_resp, completeBinding_contextStore]

/-- C7 as stated is false: dispatching the same event id twice with a
PUSH-routing context leaves two pending timers scoped to that id. -/
theorem double_timer_counterexample :
    ((run initState [.dispatch pushBody "g", .dispatch pushBody "g"]).timers.filter
      (fun t => t.event_id = "e1")).length = 2 ∧ ¬ ((2 : Nat) ≤ 1) := by
  refine ⟨by decide, by decide⟩

/-- C7 amended: each single stimulus arms at most one timer — a dispatch
arms exactly one when the cascade picks PUSH or WHATSAPP and none
otherwise, both login branches and every other operation arm none, and a
timer expiry removes one — but nothing prevents a re-dispatch of the same
event id from arming a second timer against it. -/
theorem step_timers_characterization (s : SysState) (op : Op) :
    (step s op).timers =
      (match op with
       | .dispatch b fid =>
           if selectChannel (dispatchCtx s b) = "PUSH" ∨
              selectChannel (dispatchCtx s b) = "WHATSAPP" then
             s.timers ++ [{ event_id := jsOrStr b.event_id fid,
                            kind := selectChannel (dispatchCtx s b),
                            ctx_whatsapp_opt_in := (dispatchCtx s b).whatsapp_opt_in }]
           else s.timers
       | .fire i => s.timers.eraseIdx i
       | _ => s.timers) := by
  cases op with
  | dispatch b fid => simpa [step] using sendNotification_timers s b fid
  | ack e c => simp [step, ackHandler_timers]
  | fire i => simp [step, fireTimer_timers]
  | login u d fid => simp [step, login_timers]
  | completeBinding u d eo => simp [step, completeBinding_timers]
  | updateContext uo c => simp [step, updateContext_timers]

/-- C8 as stated is false: the merge spreads the stored simulated context
over the caller-supplied one, so the stored values win; a caller context
that alone selects IN_APP is overridden and the dispatch routes PUSH. -/
theorem caller_context_ignored_counterexample :
    (sendNotification initState callerBody "g").2.chosen_channel = "PUSH" ∧
    selectChannel callerCtx = "IN_APP" ∧
    ("PUSH" : String) ≠ "IN_APP" := by
  refine ⟨by decide, by decide, by decide⟩

/-- C8 amended: the stored simulated context overrides the caller-supplied
context field by field; in particular whenever the stored context defines
all four boolean flags, the channel decision equals the cascade on the
stored context alone and the caller-supplied snapshot has no effect. -/
theorem stored_context_overrides_caller (s : SysState) (b : DispatchBody) (fid : String)
    (sc : PartialCtx)
    (hsc : alookup s.contextStore (jsOrStr b.user_id "demo_user") = some sc)
    (h1 : sc.has_app.isSome) (h2 : sc.is_active.isSome)
    (h3 : sc.device_online.isSome) (h4 : sc.whatsapp_opt_in.isSome) :
    (sendNotification s b fid).2.chosen_channel = selectChannel sc := by
  rw [sendNotification_resp]
  show selectChannel (dispatchCtx s b) = selectChannel sc
  obtain ⟨a1, e1⟩ := Option.isSome_iff_exists.mp h1
  obtain ⟨a2, e2⟩ := Option.isSome_iff_exists.mp h2
  obtain ⟨a3, e3⟩ := Option.isSome_iff_exists.mp h3
  obtain ⟨a4, e4⟩ := Option.isSome_iff_exists.mp h4
  simp [dispatchCtx, hsc, mergeCtx, selectChannel, e1, e2, e3, e4]

theorem stored_context_overrides_caller_witness :
    (sendNotification initState callerBody "g").2.chosen_channel =
      selectChannel
        { device_status := some "KNOWN", has_app := some true, is_active := some false,
          device_online := some true, whatsapp_opt_in := some true } :=
  stored_context_overrides_caller initState callerBody "g"
    { device_status := some "KNOWN", has_app := some true, is_active := some false,
      device_online := some true, whatsapp_opt_in := some true }
    (by decide) (by decide) (by decide) (by decide) (by decide)

/-- C9 as stated is false: a dispatch with no `user_id` is not rejected —
the id defaults to `demo_user`, a record is created and a successful
response is returned. -/
theorem missing_user_id_rejected_counterexample :
    ((alookup (sendNotification initState noUserBody "g").1.telemetry "e9").map
      TelemetryRecord.user_id = some "demo_user") ∧
    (sendNotification initState noUserBody "g").2 =
      { status := "ok", event_id := "e9", chosen_channel := "PUSH" } := by
  refine ⟨by decide, by decide⟩

/-- C9 amended: a dispatch whose body lacks `user_id` is processed
normally — the user id defaults to `demo_user`, a telemetry record is
created under the resolved event id, and a successful result is
returned; no `InvalidInput` failure exists on this path. -/
theorem missing_user_id_defaults_demo_user (s : SysState) (b : DispatchBody) (fid : String)
    (h : b.user_id = none) :
    (∃ r, alookup (sendNotification s b fid).1.telemetry (jsOrStr b.event_id fid) = some r ∧
       r.user_id = "demo_user") ∧
    (sendNotification s b fid).2.status = "ok" := by
  obtain ⟨r, hl, _, hu, _⟩ := sendNotification_record s b fid
  refine ⟨⟨r, hl, ?_⟩, ?_⟩
  · rw [hu, h]
    rfl
  · rw [sendNotification_resp]

theorem missing_user_id_defaults_demo_user_witness :
    (∃ r, alookup (sendNotification initState noUserBody "g").1.telemetry
        (jsOrStr noUserBody.event_id "g") = some r ∧ r.user_id = "demo_user") ∧
    (sendNotification initState noUserBody "g").2.status = "ok" :=
  missing_user_id_defaults_demo_user initState noUserBody "g" (by decide)

/-- C10: re-dispatching an existing event id replaces its record with a
freshly initialised one — `ack_ts` null, fallback state cleared, logs
holding only this dispatch's entries — while a timer armed by the earlier
dispatch stays pending and, on expiry, applies its ack check and fallback
write to the replacement record. -/
theorem redispatch_replaces_record_timer_applies (s : SysState) (b : DispatchBody)
    (fid : String) (rOld : TelemetryRecord) (i : Nat) (t : Timer)
    (_hOld : alookup s.telemetry (jsOrStr b.event_id fid) = some rOld)
    (ht : s.timers[i]? = some t) (hte : t.event_id = jsOrStr b.event_id fid) :
    (∃ r, alookup (sendNotification s b fid).1.telemetry (jsOrStr b.event_id fid) = some r ∧
       r.ack_ts = none ∧ r.fallback_triggered = false ∧ r.fallback_channel = none ∧
       r.logs.map Prod.fst = [s.clock]) ∧
    ((sendNotification s b fid).1.timers[i]? = some t) ∧
    (∃ r2, alookup (fireTimer (sendNotification s b fid).1 i).telemetry
        (jsOrStr b.event_id fid) = some r2 ∧
       r2.fallback_triggered = true ∧ r2.fallback_channel = some (timerFallback t)) := by
  have hi : i < s.timers.length := (List.getElem?_eq_some.mp ht).1
  have htimers : (sendNotification s b fid).1.timers[i]? = some t := by
    rw [sendNotification_timers]
    split
    · rw [List.getElem?_append, if_pos hi]
      exact ht
    · exact ht
  obtain ⟨r, hl, _, _, _, _, _, hack, hfb, hfc, hlg⟩ := sendNotification_record s b fid
  refine ⟨⟨r, hl, hack, hfb, hfc, hlg⟩, htimers, ?_⟩
  have hcl := fireTimer_commit_lookup (sendNotification s b fid).1 i t r htimers
    (by rw [hte]; exact hl) hack
  refine ⟨_, by rw [hte] at hcl; exact hcl, by simp, by simp⟩

theorem redispatch_replaces_record_timer_applies_witness :
    (∃ r, alookup (sendNotification (run initState [.dispatch pushBody "g"]) pushBody
        "g").1.telemetry (jsOrStr pushBody.event_id "g") = some r ∧
       r.ack_ts = none ∧ r.fallback_triggered = false ∧ r.fallback_channel = none ∧
       r.logs.map Prod.fst = [(run initState [.dispatch pushBody "g"]).clock]) ∧
    ((sendNotification (run initState [.dispatch pushBody "g"]) pushBody "g").1.timers[0]? =
      some { event_id := "e1", kind := "PUSH", ctx_whatsapp_opt_in := some true }) ∧
    (∃ r2, alookup (fireTimer (sendNotification (run initState [.dispatch pushBody "g"])
          pushBody "g").1 0).telemetry (jsOrStr pushBody.event_id "g") = some r2 ∧
       r2.fallback_triggered = true ∧
       r2.fallback_channel = some (timerFallback
         { event_id := "e1", kind := "PUSH", ctx_whatsapp_opt_in := some true })) :=
  redispatch_replaces_record_timer_applies (run initState [.dispatch pushBody "g"])
    pushBody "g"
    { event_id := "e1", user_id := "demo_user", event_type := "LOGIN_OTP",
      chosen_channel := some "PUSH", sent_ts := some 0, ack_ts := none,
      fallback_triggered := false, fallback_channel := none,
      logs := [(0, "Route: PUSH (Background notification)")] }
    0 { event_id := "e1", kind := "PUSH", ctx_whatsapp_opt_in := some true }
    (by decide) (by decide) (by decide)


theorem completeBinding_no_record (s : SysState) (u d eid : String)
    (he : eid ≠ "") (hl : alookup s.telemetry eid = none) :
    (completeBinding s u d (some eid)).telemetry = s.telemetry := by
  simp [completeBinding, he, hl]

/-- Telemetry records are never deleted: any key present before a
stimulus is still present after it. -/
theorem step_telemetry_mono (s : SysState) (op : Op) (e : String)
    (h : (alookup s.telemetry e).isSome) :
    (alookup (step s op).telemetry e).isSome := by
  obtain ⟨r, hr⟩ := Option.isSome_iff_exists.mp h
  cases op with
  | dispatch b fid =>
      by_cases he : jsOrStr b.event_id fid = e
      · obtain ⟨r0, hl0, _⟩ := sendNotification_record s b fid
        rw [he] at hl0
        simp [step, hl0]
      · simp [step, sendNotification_telemetry_ne s b fid e he, hr]
  | ack e2 c =>
      by_cases he : e2 = e
      · subst he
        simp [step, ackHandler_lookup_self s e2 c r hr]
      · simp [step, ackHandler_telemetry_ne s e2 c e he, hr]
  | fire i =>
      cases ht : s.timers[i]? with
      | none => simp [step, fireTimer_none s i ht, hr]
      | some t =>
          by_cases hte : t.event_id = e
          · have hlt : alookup s.telemetry t.event_id = some r := by rw [hte]; exact hr
            cases ha : r.ack_ts with
            | some v =>
                rw [show (step s (.fire i)).telemetry = (fireTimer s i).telemetry from by
                  simp [step]]
                rw [fireTimer_acked s i t r ht hlt (by simp [ha])]
                simp [hr]
            | none =>
                have := fireTimer_commit_lookup s i t r ht hlt ha
                rw [hte] at this
                simp [step, this]
          · have hne : ∀ t2, s.timers[i]? = some t2 → t2.event_id ≠ e := by
              intro t2 ht2
              rw [ht] at ht2
              cases ht2
              exact hte
            simp [step, fireTimer_telemetry_ne s i e hne, hr]
  | login u d fid =>
      by_cases he : fid = e
      · subst he
        obtain ⟨r0, hl0, _⟩ := login_record s u d fid
        simp [step, hl0]
      · simp [step, login_telemetry_ne s u d fid e he, hr]
  | completeBinding u d eo =>
      by_cases heo : eo = some e
      · subst heo
        by_cases hee : e = ""
        · subst hee
          simp [step, completeBinding_empty_telemetry, hr]
        · simp [step, completeBinding_ack_lookup s u d e r hee hr]
      · simp [step, completeBinding_telemetry_ne s u d eo e heo, hr]
  | updateContext uo c =>
      simp [step, updateContext_telemetry, hr]

/-- Every telemetry record is stored under its own event id, and stays
that way across every stimulus. -/
theorem step_preserves_own_key (s : SysState) (op : Op)
    (h : ∀ k r, alookup s.telemetry k = some r → r.event_id = k) :
    ∀ k r, alookup (step s op).telemetry k = some r → r.event_id = k := by
  intro k r hkr
  cases op with
  | dispatch b fid =>
      by_cases he : jsOrStr b.event_id fid = k
      · obtain ⟨r0, hl0, hid0, _⟩ := sendNotification_record s b fid
        rw [he] at hl0
        rw [show (step s (.dispatch b fid)).telemetry = (sendNotification s b fid).1.telemetry
          from by simp [step]] at hkr
        rw [hl0] at hkr
        cases hkr
        rw [hid0, he]
      · rw [show (step s (.dispatch b fid)).telemetry = (sendNotification s b fid).1.telemetry
          from by simp [step]] at hkr
        rw [sendNotification_telemetry_ne s b fid k he] at hkr
        exact h k r hkr
  | ack e2 c =>
      rw [show (step s (.ack e2 c)).telemetry = (ackHandler s e2 c).telemetry from by
        simp [step]] at hkr
      by_cases he : e2 = k
      · subst he
        cases hl : alookup s.telemetry e2 with
        | none =>
            rw [ackHandler_none s e2 c hl] at hkr
            exact h e2 r hkr
        | some r0 =>
            rw [ackHandler_lookup_self s e2 c r0 hl] at hkr
            cases hkr
            exact h e2 r0 hl
      · rw [ackHandler_telemetry_ne s e2 c k he] at hkr
        exact h k r hkr
  | fire i =>
      rw [show (step s (.fire i)).telemetry = (fireTimer s i).telemetry from by
        simp [step]] at hkr
      cases ht : s.timers[i]? with
      | none =>
          rw [fireTimer_none s i ht] at hkr
          exact h k r hkr
      | some t =>
          by_cases hte : t.event_id = k
          · cases hl : alookup s.telemetry t.event_id with
            | none =>
                rw [fireTimer_no_record s i t ht hl] at hkr
                exact h k r hkr
            | some r0 =>
                cases ha : r0.ack_ts with
                | some v =>
                    rw [fireTimer_acked s i t r0 ht hl (by simp [ha])] at hkr
                    exact h k r hkr
                | none =>
                    have hcl := fireTimer_commit_lookup s i t r0 ht hl ha
                    rw [hte] at hcl
                    rw [hcl] at hkr
                    cases hkr
                    have := h t.event_id r0 hl
                    rw [hte] at this
                    exact this
          · have hne : ∀ t2, s.timers[i]? = some t2 → t2.event_id ≠ k := by
              intro t2 ht2
              rw [ht] at ht2
              cases ht2
              exact hte
            rw [fireTimer_telemetry_ne s i k hne] at hkr
            exact h k r hkr
  | login u d fid =>
      rw [show (step s (.login u d fid)).telemetry = (login s u d fid).1.telemetry from by
        simp [step]] at hkr
      by_cases he : fid = k
      · subst he
        obtain ⟨r0, hl0, hid0, _⟩ := login_record s u d fid
        rw [hl0] at hkr
        cases hkr
        exact hid0
      · rw [login_telemetry_ne s u d fid k he] at hkr
        exact h k r hkr
  | completeBinding u d eo =>
      rw [show (step s (.completeBinding u d eo)).telemetry =
        (completeBinding s u d eo).telemetry from by simp [step]] at hkr
      by_cases heo : eo = some k
      · subst heo
        by_cases hee : k = ""
        · rw [hee] at hkr ⊢
          rw [completeBinding_empty_telemetry] at hkr
          exact h "" r hkr
        · cases hl : alookup s.telemetry k with
          | none =>
              rw [completeBinding_no_record s u d k hee hl] at hkr
              exact h k r hkr
          | some r0 =>
              rw [completeBinding_ack_lookup s u d k r0 hee hl] at hkr
              cases hkr
              exact h k r0 hl
      · rw [completeBinding_telemetry_ne s u d eo k heo] at hkr
        exact h k r hkr
  | updateContext uo c =>
      rw [show (step s (.updateContext uo c)).telemetry = s.telemetry from by
        simp [step, updateContext_telemetry]] at hkr
      exact h k r hkr

/-- How one stimulus extends a user's event-id index. -/
theorem step_userEvents (s : SysState) (op : Op) (u : String) :
    (alookup (step s op).userEvents u).getD [] =
      ((alookup s.userEvents u).getD []) ++ userInsertions u [op] := by
  cases op with
  | dispatch b fid =>
      rw [show (step s (.dispatch b fid)).userEvents =
        (sendNotification s b fid).1.userEvents from by simp [step]]
      rw [sendNotification_userEvents]
      by_cases hu : jsOrStr b.user_id "demo_user" = u
      · rw [hu, alookup_aupdate_self]
        simp [userInsertions, hu]
      · rw [alookup_aupdate_ne _ _ _ _ hu]
        simp [userInsertions, hu]
  | ack e2 c =>
      simp [step, ackHandler_userEvents, userInsertions]
  | fire i =>
      simp [step, fireTimer_userEvents, userInsertions]
  | login u2 d fid =>
      rw [show (step s (.login u2 d fid)).userEvents = (login s u2 d fid).1.userEvents
        from by simp [step]]
      rw [login_userEvents]
      by_cases hu : u2 = u
      · rw [hu, alookup_aupdate_self]
        simp [userInsertions, hu]
      · rw [alookup_aupdate_ne _ _ _ _ hu]
        simp [userInsertions, hu]
  | completeBinding u2 d eo =>
      simp [step, completeBinding_userEvents, userInsertions]
  | updateContext uo c =>
      simp [step, updateContext_userEvents, userInsertions]

/-- Every id in a user's index has a telemetry record, across every
stimulus. -/
theorem step_preserves_presence (s : SysState) (op : Op)
    (h : ∀ u e, e ∈ (alookup s.userEvents u).getD [] → (alookup s.telemetry e).isSome) :
    ∀ u e, e ∈ (alookup (step s op).userEvents u).getD [] →
      (alookup (step s op).telemetry e).isSome := by
  intro u e he
  rw [step_userEvents] at he
  rcases List.mem_append.mp he with hmem | hnew
  · exact step_telemetry_mono s op e (h u e hmem)
  · cases op with
    | dispatch b fid =>
        simp only [userInsertions, List.append_nil] at hnew
        split at hnew
        · have heq : e = jsOrStr b.event_id fid := by simpa using hnew
          subst heq
          obtain ⟨r0, hl0, _⟩ := sendNotification_record s b fid
          simp [step, hl0]
        · simp at hnew
    | ack e2 c => simp [userInsertions] at hnew
    | fire i => simp [userInsertions] at hnew
    | login u2 d fid =>
        simp only [userInsertions, List.append_nil] at hnew
        split at hnew
        · have heq : e = fid := by simpa using hnew
          subst heq
          obtain ⟨r0, hl0, _⟩ := login_record s u2 d e
          simp [step, hl0]
        · simp at hnew
    | completeBinding u2 d eo => simp [userInsertions] at hnew
    | updateContext uo c => simp [userInsertions] at hnew


/-- Lift of `step_userEvents` to sequences. -/
theorem run_userEvents (ops : List Op) (s : SysState) (u : String) :
    (alookup (run s ops).userEvents u).getD [] =
      ((alookup s.userEvents u).getD []) ++ userInsertions u ops := by
  induction ops generalizing s with
  | nil => simp [run, userInsertions]
  | cons op rest ih =>
      have h1 : run s (op :: rest) = run (step s op) rest := by simp [run]
      rw [h1, ih (step s op), step_userEvents]
      rw [List.append_assoc]
      congr 1
      simp [userInsertions]

/-- The two store invariants hold after any sequence of stimuli from any
state satisfying them. -/
theorem run_invariants_aux (ops : List Op) (s : SysState)
    (h1 : ∀ k r, alookup s.telemetry k = some r → r.event_id = k)
    (h2 : ∀ u e, e ∈ (alookup s.userEvents u).getD [] →
      (alookup s.telemetry e).isSome) :
    (∀ k r, alookup (run s ops).telemetry k = some r → r.event_id = k) ∧
    (∀ u e, e ∈ (alookup (run s ops).userEvents u).getD [] →
      (alookup (run s ops).telemetry e).isSome) := by
  induction ops generalizing s with
  | nil => exact ⟨h1, h2⟩
  | cons op rest ih =>
      have hs : run s (op :: rest) = run (step s op) rest := by simp [run]
      rw [hs]
      exact ih (step s op) (step_preserves_own_key s op h1) (step_preserves_presence s op h2)

/-- The two store invariants hold after any run from the initial state. -/
theorem run_invariants (ops : List Op) :
    (∀ k r, alookup (run initState ops).telemetry k = some r → r.event_id = k) ∧
    (∀ u e, e ∈ (alookup (run initState ops).userEvents u).getD [] →
      (alookup (run initState ops).telemetry e).isSome) := by
  refine run_invariants_aux ops initState ?_ ?_
  · intro k r hkr
    simp [initState, alookup] at hkr
  · intro u e he
    simp [initState, alookup] at he

theorem filterMap_lookup_map_event_id (tel : List (String × TelemetryRecord))
    (l : List String)
    (h1 : ∀ k r, alookup tel k = some r → r.event_id = k)
    (h2 : ∀ e ∈ l, (alookup tel e).isSome) :
    (l.filterMap (fun id => alookup tel id)).map TelemetryRecord.event_id = l := by
  induction l with
  | nil => simp
  | cons e rest ih =>
      obtain ⟨r, hr⟩ := Option.isSome_iff_exists.mp (h2 e (by simp))
      rw [List.filterMap_cons, hr]
      simp only [List.map_cons]
      rw [h1 e r hr, ih (fun x hx => h2 x (by simp [hx]))]

/-- C6 as stated is false: the per-user index does not suppress
duplicates, so dispatching the same event id twice for a user makes the
inbox list that event twice. -/
theorem inbox_duplicate_counterexample :
    ((inbox (run initState [.dispatch pushBody "g", .dispatch pushBody "g"])
        "demo_user").map TelemetryRecord.event_id = ["e1", "e1"]) ∧
    ¬ ((inbox (run initState [.dispatch pushBody "g", .dispatch pushBody "g"])
        "demo_user").map TelemetryRecord.event_id).Nodup := by
  refine ⟨by decide, by decide⟩

/-- C6 amended: `listForUser` returns the user's events newest first —
the reverse of the per-user insertion order — with exactly one entry per
dispatch or login inserted for that user; entries are therefore distinct
when no event id is inserted twice for the user, but a re-dispatch of
the same id produces a duplicate entry. -/
theorem inbox_newest_first_per_insertion (ops : List Op) (u : String) :
    (inbox (run initState ops) u).map TelemetryRecord.event_id =
      (userInsertions u ops).reverse := by
  obtain ⟨h1, h2⟩ := run_invariants ops
  unfold inbox
  rw [List.map_reverse]
  rw [filterMap_lookup_map_event_id _ _ h1 (fun e he => h2 u e he)]
  rw [run_userEvents]
  simp [initState, alookup]

end TrustSync
